import Mathlib

/-!
# godartsass: options.go

A shallow embedding of `options.go` (package `godartsass`): the option types,
`Options.init`, `Args.init`, `ParseOutputStyle` and `ParseSourceSyntax`,
followed by the properties proved about them.

Conventions of the embedding.

* A Go `string` is a Lean `String`; the named string types `OutputStyle` and
  `SourceSyntax` are abbreviations of `String`, as in the source.
* A method with a pointer receiver that returns `error` becomes a function
  that returns the pair (error, receiver after the call); a nil error is `none`.
* Functions of the Go standard library and declarations of the repository that
  lie outside `options.go` are parameters: `strings.ToUpper`,
  `filepath.Clean`, `defaultDartSassEmbeddedFilename`, and the two generated
  name tables of package `embeddedsass`.
* `uint32` and `int32` values are natural numbers and integers; `options.go`
  does no arithmetic on them.
-/

namespace Godartsass

/-! ## Types and constants -/

/-- Source: `type OutputStyle string`. -/
abbrev OutputStyle := String

/-- Source: `type SourceSyntax string`. -/
abbrev SourceSyntax := String

def OutputStyleNested : OutputStyle := "NESTED"
def OutputStyleExpanded : OutputStyle := "EXPANDED"
def OutputStyleCompact : OutputStyle := "COMPACT"
def OutputStyleCompressed : OutputStyle := "COMPRESSED"

def SourceSyntaxSCSS : SourceSyntax := "SCSS"
def SourceSyntaxSASS : SourceSyntax := "INDENTED"
def SourceSyntaxCSS : SourceSyntax := "CSS"

/-! ## The parse functions -/

/-- Go standard library, `strings.ToUpper`: the string is upper-cased rune by
rune. On the ASCII range the mapping sends `a`..`z` to `A`..`Z` and fixes every
other rune; outside it the mapping is `unicode.ToUpper`, the parameter
`unicodeToUpper`. -/
def ToUpper (unicodeToUpper : Char → Char) (s : String) : String :=
  String.mk (s.data.map (fun c => if c.toNat < 128 then c.toUpper else unicodeToUpper c))

/-- Source: `func ParseOutputStyle(s string) OutputStyle`. The switch compares
`strings.ToUpper(s)` with the constants in the order of the source; `toUpper`
stands for `strings.ToUpper`. -/
def ParseOutputStyle (toUpper : String → String) (s : String) : OutputStyle :=
  let u : OutputStyle := toUpper s
  if u = OutputStyleNested then OutputStyleNested
  else if u = OutputStyleCompact then OutputStyleCompact
  else if u = OutputStyleCompressed then OutputStyleCompressed
  else if u = OutputStyleExpanded then OutputStyleExpanded
  else OutputStyleNested

/-- Source: `func ParseSourceSyntax(s string) SourceSyntax`. The second case of
the switch lists two values, `SourceSyntaxSASS` and the literal `"SASS"`. -/
def ParseSourceSyntax (toUpper : String → String) (s : String) : SourceSyntax :=
  let u : SourceSyntax := toUpper s
  if u = SourceSyntaxSCSS then SourceSyntaxSCSS
  else if u = SourceSyntaxSASS ∨ u = "SASS" then SourceSyntaxSASS
  else if u = SourceSyntaxCSS then SourceSyntaxCSS
  else SourceSyntaxSCSS

/-! ## Options -/

/-- Source: `type Options struct`. -/
structure Options where
  DartSassEmbeddedFilename : String
  deriving DecidableEq, Repr

/-- Source: `func (opts *Options) init() error`. The constant
`defaultDartSassEmbeddedFilename` is declared outside `options.go` (one value
per platform) and is the first parameter. The result is the returned error
together with the receiver after the call. -/
def Options.init (defaultDartSassEmbeddedFilename : String) (opts : Options) :
    Option String × Options :=
  let opts :=
    if opts.DartSassEmbeddedFilename = "" then
      { opts with DartSassEmbeddedFilename := defaultDartSassEmbeddedFilename }
    else opts
  (none, opts)

/-! ## Args -/

/-- Source: `type ImportResolver interface`, a value with the two methods. -/
structure ImportResolver where
  CanonicalizeURL : String → String
  Load : String → String

/-- Package `embeddedsass`, `InboundMessage_CompileRequest_Importer`: the
one-of `Importer` field is either `ImporterId` (a `uint32`) or `Path`. These
are the only two alternatives `options.go` constructs. -/
inductive Importer where
  | ImporterId (id : Nat)
  | Path (path : String)
  deriving DecidableEq, Repr

/-- Whether an entry of the chain is an importer-ID entry. -/
def Importer.isImporterId : Importer → Bool
  | .ImporterId _ => true
  | .Path _ => false

/-- Package `embeddedsass`: the two generated name tables that `Args.init`
consults, `InboundMessage_CompileRequest_OutputStyle_value` and
`InboundMessage_Syntax_value`, both of Go type `map[string]int32`. A lookup
`v, ok := m[k]` is `some v` when `ok` and `none` otherwise. The tables are
generated code outside `options.go`, so the functions below take them as a
parameter. -/
structure Embeddedsass where
  InboundMessage_CompileRequest_OutputStyle_value : String → Option Int
  InboundMessage_Syntax_value : String → Option Int

/-- Source: `type Args struct`. `ImportResolver` is an interface value, `none`
when nil; `IncludePaths` is a slice, `none` when nil. `sassImporters` is a
slice that is only assigned and appended to, so the nil slice is the empty
list. -/
structure Args where
  Source : String
  URL : String
  SourceSyntax : SourceSyntax
  OutputStyle : OutputStyle
  EnableSourceMap : Bool
  ImportResolver : Option ImportResolver
  IncludePaths : Option (List String)
  sassOutputStyle : Int
  sassSourceSyntax : Int
  sassImporters : List Importer

/-- The error values of `Args.init`: `fmt.Errorf("invalid OutputStyle %q", v)`
and `fmt.Errorf("invalid SourceSyntax %q", v)`, kept as the kind of error and
the value that the message quotes. -/
inductive InitError where
  | invalidOutputStyle (v : OutputStyle)
  | invalidSourceSyntax (v : SourceSyntax)
  deriving DecidableEq, Repr

/-- Go: the elements of a slice in order, none for the nil slice. -/
def elems {α : Type} : Option (List α) → List α
  | none => []
  | some l => l

/-- Go: `len(s)` of a slice, zero for the nil slice. -/
def len {α : Type} (s : Option (List α)) : Nat :=
  (elems s).length

/-- Source: `func (args *Args) init(seq uint32, opts Options) error`, statement
by statement. `sass` holds the two name tables and `Clean` stands for
`filepath.Clean`. The result is the returned error together with the receiver
as the call leaves it, also when it returns early. -/
def Args.init (sass : Embeddedsass) (Clean : String → String)
    (seq : Nat) (_opts : Options) (args : Args) : Option InitError × Args :=
  let args := if args.OutputStyle = "" then { args with OutputStyle := OutputStyleNested } else args
  let args := if args.SourceSyntax = "" then { args with SourceSyntax := SourceSyntaxSCSS } else args
  match sass.InboundMessage_CompileRequest_OutputStyle_value args.OutputStyle with
  | none => (some (InitError.invalidOutputStyle args.OutputStyle), args)
  | some v =>
    let args := { args with sassOutputStyle := v }
    match sass.InboundMessage_Syntax_value args.SourceSyntax with
    | none => (some (InitError.invalidSourceSyntax args.SourceSyntax), args)
    | some v =>
      let args := { args with sassSourceSyntax := v }
      let args :=
        match args.ImportResolver with
        | some _ => { args with sassImporters := [Importer.ImporterId seq] }
        | none => args
      let args :=
        match args.IncludePaths with
        | some paths =>
          paths.foldl
            (fun (a : Args) (p : String) =>
              { a with sassImporters := a.sassImporters ++ [Importer.Path (Clean p)] })
            args
        | none => args
      (none, args)

/-- The output style that `Args.init` looks up: the first statement of the body
replaces an empty `OutputStyle` by `OutputStyleNested`. -/
def defaultedOutputStyle (args : Args) : OutputStyle :=
  if args.OutputStyle = "" then OutputStyleNested else args.OutputStyle

/-- The source syntax that `Args.init` looks up: the second statement of the
body replaces an empty `SourceSyntax` by `SourceSyntaxSCSS`. -/
def defaultedSourceSyntax (args : Args) : SourceSyntax :=
  if args.SourceSyntax = "" then SourceSyntaxSCSS else args.SourceSyntax

/-! ## Sample values -/

/-- Modelled from the spec: the generated tables of package `embeddedsass` are
not part of `options.go`. The spec describes the output style and the source
syntax as fixed enumerations with known engine codes and fixes no numbers; the
keys below are the seven string constants that `options.go` declares, numbered
as sample codes. The general theorems quantify over every table; this one is
the concrete table on which the definitions are evaluated. -/
def embeddedsass : Embeddedsass where
  InboundMessage_CompileRequest_OutputStyle_value := fun k =>
    if k = "EXPANDED" then some 0
    else if k = "COMPRESSED" then some 1
    else if k = "NESTED" then some 2
    else if k = "COMPACT" then some 3
    else none
  InboundMessage_Syntax_value := fun k =>
    if k = "SCSS" then some 0
    else if k = "INDENTED" then some 1
    else if k = "CSS" then some 2
    else none

/-- The zero value of `Args`. -/
def Args.zero : Args where
  Source := ""
  URL := ""
  SourceSyntax := ""
  OutputStyle := ""
  EnableSourceMap := false
  ImportResolver := none
  IncludePaths := none
  sassOutputStyle := 0
  sassSourceSyntax := 0
  sassImporters := []

/-- A resolver that resolves nothing. -/
def ImportResolver.empty : ImportResolver where
  CanonicalizeURL := fun _ => ""
  Load := fun _ => ""

/-! ## The identifier allocator -/

/-- C1: `ParseOutputStyle` is case-insensitive. For every string `s`, if
`strings.ToUpper(s)` is `"NESTED"`, `"EXPANDED"`, `"COMPACT"` or `"COMPRESSED"`
then `ParseOutputStyle(s)` is the constant of that name; in particular
`"compressed"`, `"COMPRESSED"` and `"Compressed"` all give
`OutputStyleCompressed`, whatever `unicode.ToUpper` does outside ASCII. -/
theorem ParseOutputStyle_case_insensitive (toUpper : String → String) (s : String) :
    (toUpper s = "NESTED" → ParseOutputStyle toUpper s = OutputStyleNested) ∧
    (toUpper s = "EXPANDED" → ParseOutputStyle toUpper s = OutputStyleExpanded) ∧
    (toUpper s = "COMPACT" → ParseOutputStyle toUpper s = OutputStyleCompact) ∧
    (toUpper s = "COMPRESSED" → ParseOutputStyle toUpper s = OutputStyleCompressed) ∧
    (∀ up : Char → Char,
      ParseOutputStyle (ToUpper up) "compressed" = OutputStyleCompressed ∧
      ParseOutputStyle (ToUpper up) "COMPRESSED" = OutputStyleCompressed ∧
      ParseOutputStyle (ToUpper up) "Compressed" = OutputStyleCompressed) := by
  refine ⟨?_, ?_, ?_, ?_, ?_⟩
  · intro h
    simp [ParseOutputStyle, h, OutputStyleNested]
  · intro h
    simp [ParseOutputStyle, h, OutputStyleNested, OutputStyleCompact, OutputStyleCompressed,
      OutputStyleExpanded]
  · intro h
    simp [ParseOutputStyle, h, OutputStyleNested, OutputStyleCompact]
  · intro h
    simp [ParseOutputStyle, h, OutputStyleNested, OutputStyleCompact, OutputStyleCompressed]
  · intro up
    exact ⟨rfl, rfl, rfl⟩

/-- C1, evaluated: with the ASCII upper-casing, `"eXpanded"` upper-cases to
`"EXPANDED"` and parses to `OutputStyleExpanded`. -/
theorem ParseOutputStyle_case_insensitive_witness :
    ToUpper id "eXpanded" = "EXPANDED" ∧
    ParseOutputStyle (ToUpper id) "eXpanded" = OutputStyleExpanded :=
  ⟨by decide, (ParseOutputStyle_case_insensitive (ToUpper id) "eXpanded").2.1 (by decide)⟩

/-- C2: `ParseOutputStyle` falls back to the default. For every string `s`
whose upper-cased form is none of `"NESTED"`, `"EXPANDED"`, `"COMPACT"`,
`"COMPRESSED"` the result is `OutputStyleNested`; the empty string is such a
string. -/
theorem ParseOutputStyle_unknown (toUpper : String → String) (s : String)
    (hN : toUpper s ≠ "NESTED") (hE : toUpper s ≠ "EXPANDED")
    (hC : toUpper s ≠ "COMPACT") (hZ : toUpper s ≠ "COMPRESSED") :
    ParseOutputStyle toUpper s = OutputStyleNested ∧
    (∀ up : Char → Char, ParseOutputStyle (ToUpper up) "" = OutputStyleNested) := by
  refine ⟨?_, fun _ => rfl⟩
  simp [ParseOutputStyle, hN, hE, hC, hZ, OutputStyleNested, OutputStyleCompact,
    OutputStyleCompressed, OutputStyleExpanded]

/-- C2, evaluated: `"minified"` names no output style and parses to
`OutputStyleNested`. -/
theorem ParseOutputStyle_unknown_witness :
    ParseOutputStyle (ToUpper id) "minified" = OutputStyleNested :=
  (ParseOutputStyle_unknown (ToUpper id) "minified"
    (by decide) (by decide) (by decide) (by decide)).1

/-- C3: `ParseSourceSyntax` falls back to the default. For every string `s`
whose upper-cased form is none of `"SCSS"`, `"INDENTED"`, `"SASS"`, `"CSS"`
(the empty string included) the result is `SourceSyntaxSCSS`; when the
upper-cased form is `"SCSS"` the result is `SourceSyntaxSCSS`, and when it is
`"CSS"` the result is `SourceSyntaxCSS`. -/
theorem ParseSourceSyntax_unknown (toUpper : String → String) (s : String) :
    (toUpper s ≠ "SCSS" → toUpper s ≠ "INDENTED" → toUpper s ≠ "SASS" →
      toUpper s ≠ "CSS" → ParseSourceSyntax toUpper s = SourceSyntaxSCSS) ∧
    (∀ up : Char → Char, ParseSourceSyntax (ToUpper up) "" = SourceSyntaxSCSS) ∧
    (toUpper s = "SCSS" → ParseSourceSyntax toUpper s = SourceSyntaxSCSS) ∧
    (toUpper s = "CSS" → ParseSourceSyntax toUpper s = SourceSyntaxCSS) := by
  refine ⟨?_, fun _ => rfl, ?_, ?_⟩
  · intro h1 h2 h3 h4
    simp [ParseSourceSyntax, h2, h3, h4, SourceSyntaxSCSS, SourceSyntaxSASS, SourceSyntaxCSS]
  · intro h
    simp [ParseSourceSyntax, h, SourceSyntaxSCSS]
  · intro h
    simp [ParseSourceSyntax, h, SourceSyntaxSCSS, SourceSyntaxSASS, SourceSyntaxCSS]

/-- C3, evaluated: `"less"` names no syntax and parses to `SourceSyntaxSCSS`,
and `"css"` parses to `SourceSyntaxCSS`. -/
theorem ParseSourceSyntax_unknown_witness :
    ParseSourceSyntax (ToUpper id) "less" = SourceSyntaxSCSS ∧
    ParseSourceSyntax (ToUpper id) "css" = SourceSyntaxCSS :=
  ⟨(ParseSourceSyntax_unknown (ToUpper id) "less").1
      (by decide) (by decide) (by decide) (by decide),
   (ParseSourceSyntax_unknown (ToUpper id) "css").2.2.2 (by decide)⟩

/-! ## Args.init: auxiliary facts -/

/-- The loop over `IncludePaths` appends one cleaned path entry per path and
touches no other field. -/
theorem foldl_include_paths (Clean : String → String) (paths : List String) (a : Args) :
    paths.foldl
        (fun (a : Args) (p : String) =>
          { a with sassImporters := a.sassImporters ++ [Importer.Path (Clean p)] }) a
      = { a with sassImporters :=
            a.sassImporters ++ paths.map (fun p => Importer.Path (Clean p)) } := by
  induction paths generalizing a with
  | nil => simp
  | cons p ps ih => simp [List.foldl_cons, ih]

/-- The three outcomes of `Args.init`, by the two table lookups. -/
theorem Args.init_cases (sass : Embeddedsass) (Clean : String → String) (seq : Nat)
    (opts : Options) (args : Args) :
    let r := Args.init sass Clean seq opts args
    (sass.InboundMessage_CompileRequest_OutputStyle_value (defaultedOutputStyle args) = none ∧
      r.1 = some (InitError.invalidOutputStyle (defaultedOutputStyle args)) ∧
      r.2 = { args with OutputStyle := (defaultedOutputStyle args),
                        SourceSyntax := (defaultedSourceSyntax args) }) ∨
    (∃ v, sass.InboundMessage_CompileRequest_OutputStyle_value (defaultedOutputStyle args) = some v ∧
      sass.InboundMessage_Syntax_value (defaultedSourceSyntax args) = none ∧
      r.1 = some (InitError.invalidSourceSyntax (defaultedSourceSyntax args)) ∧
      r.2 = { args with OutputStyle := (defaultedOutputStyle args),
                        SourceSyntax := (defaultedSourceSyntax args),
                        sassOutputStyle := v }) ∨
    (∃ v w, sass.InboundMessage_CompileRequest_OutputStyle_value (defaultedOutputStyle args) = some v ∧
      sass.InboundMessage_Syntax_value (defaultedSourceSyntax args) = some w ∧
      r.1 = none ∧
      r.2 = { args with OutputStyle := (defaultedOutputStyle args),
                        SourceSyntax := (defaultedSourceSyntax args),
                        sassOutputStyle := v,
                        sassSourceSyntax := w,
                        sassImporters :=
                          (match args.ImportResolver with
                            | some _ => [Importer.ImporterId seq]
                            | none => args.sassImporters) ++
                          (elems args.IncludePaths).map (fun p => Importer.Path (Clean p)) }) := by
  intro r
  cases h1 : sass.InboundMessage_CompileRequest_OutputStyle_value (defaultedOutputStyle args) with
  | none =>
    left
    refine ⟨rfl, ?_, ?_⟩ <;>
      by_cases ho : args.OutputStyle = "" <;> by_cases hs : args.SourceSyntax = "" <;>
      simp_all [r, Args.init, defaultedOutputStyle, defaultedSourceSyntax]
  | some v =>
    right
    cases h2 : sass.InboundMessage_Syntax_value (defaultedSourceSyntax args) with
    | none =>
      left
      refine ⟨v, rfl, rfl, ?_, ?_⟩ <;>
        by_cases ho : args.OutputStyle = "" <;> by_cases hs : args.SourceSyntax = "" <;>
        simp_all [r, Args.init, defaultedOutputStyle, defaultedSourceSyntax]
    | some w =>
      right
      refine ⟨v, w, rfl, rfl, ?_, ?_⟩ <;>
        by_cases ho : args.OutputStyle = "" <;> by_cases hs : args.SourceSyntax = "" <;>
        cases hr : args.ImportResolver <;> cases hp : args.IncludePaths <;>
        simp_all [r, Args.init, defaultedOutputStyle, defaultedSourceSyntax,
          foldl_include_paths, elems]

/-- On success the chain is the resolver slot (or, without a resolver, the
chain as it was) followed by one cleaned path entry per include path. -/
theorem Args.init_ok_chain (sass : Embeddedsass) (Clean : String → String) (seq : Nat)
    (opts : Options) (args : Args) (hok : (Args.init sass Clean seq opts args).1 = none) :
    (Args.init sass Clean seq opts args).2.sassImporters =
      (match args.ImportResolver with
        | some _ => [Importer.ImporterId seq]
        | none => args.sassImporters) ++
      (elems args.IncludePaths).map (fun p => Importer.Path (Clean p)) := by
  rcases Args.init_cases sass Clean seq opts args with
    ⟨_, he, _⟩ | ⟨v, _, _, he, _⟩ | ⟨v, w, _, _, _, hr⟩
  · rw [he] at hok; cases hok
  · rw [he] at hok; cases hok
  · rw [hr]

/-- On failure the chain is the one the call started with. -/
theorem Args.init_err_chain (sass : Embeddedsass) (Clean : String → String) (seq : Nat)
    (opts : Options) (args : Args) (herr : (Args.init sass Clean seq opts args).1 ≠ none) :
    (Args.init sass Clean seq opts args).2.sassImporters = args.sassImporters := by
  rcases Args.init_cases sass Clean seq opts args with
    ⟨_, _, hr⟩ | ⟨v, _, _, _, hr⟩ | ⟨v, w, _, _, he, _⟩
  · rw [hr]
  · rw [hr]
  · exact absurd he herr

/-! ## Args.init: validation and defaults -/

/-- C4: `Args.init` fails exactly when an enumerated option has no engine
code. With an empty `OutputStyle` replaced by `"NESTED"` and an empty
`SourceSyntax` by `"SCSS"`, the returned error is non-nil if and only if the
output style is not a key of the output-style table or the source syntax is
not a key of the syntax table; otherwise the error is nil and
`sassOutputStyle`, `sassSourceSyntax` hold the codes the tables give for the
two names. The two fields hold the defaulted names after the call. -/
theorem Args_init_error_iff (sass : Embeddedsass) (Clean : String → String) (seq : Nat)
    (opts : Options) (args : Args) :
    ((Args.init sass Clean seq opts args).1 ≠ none ↔
      (sass.InboundMessage_CompileRequest_OutputStyle_value (defaultedOutputStyle args) = none ∨
       sass.InboundMessage_Syntax_value (defaultedSourceSyntax args) = none)) ∧
    ((Args.init sass Clean seq opts args).1 = none →
      sass.InboundMessage_CompileRequest_OutputStyle_value (defaultedOutputStyle args)
          = some (Args.init sass Clean seq opts args).2.sassOutputStyle ∧
      sass.InboundMessage_Syntax_value (defaultedSourceSyntax args)
          = some (Args.init sass Clean seq opts args).2.sassSourceSyntax) ∧
    (Args.init sass Clean seq opts args).2.OutputStyle = defaultedOutputStyle args ∧
    (Args.init sass Clean seq opts args).2.SourceSyntax = defaultedSourceSyntax args := by
  rcases Args.init_cases sass Clean seq opts args with
    ⟨h1, he, hr⟩ | ⟨v, h1, h2, he, hr⟩ | ⟨v, w, h1, h2, he, hr⟩
  · simp [he, hr, h1]
  · simp [he, hr, h1, h2]
  · simp [he, hr, h1, h2]

/-- C4, evaluated on the sample tables: the style `"compressed"` is no key, so
the call fails; with `"COMPRESSED"` and `"INDENTED"` it succeeds with the codes
1 and 1. -/
theorem Args_init_error_iff_witness :
    (Args.init embeddedsass id 7 ⟨""⟩ { Args.zero with OutputStyle := "compressed" }).1 ≠ none ∧
    (Args.init embeddedsass id 7 ⟨""⟩
      { Args.zero with OutputStyle := "COMPRESSED", SourceSyntax := "INDENTED" }).2.sassOutputStyle
      = 1 ∧
    (Args.init embeddedsass id 7 ⟨""⟩
      { Args.zero with OutputStyle := "COMPRESSED", SourceSyntax := "INDENTED" }).2.sassSourceSyntax
      = 1 := by
  refine ⟨?_, ?_, ?_⟩
  · exact (Args_init_error_iff embeddedsass id 7 ⟨""⟩
      { Args.zero with OutputStyle := "compressed" }).1.2 (Or.inl (by decide))
  · have h := ((Args_init_error_iff embeddedsass id 7 ⟨""⟩
      { Args.zero with OutputStyle := "COMPRESSED", SourceSyntax := "INDENTED" }).2.1
        (by decide)).1
    exact (Option.some.inj (h.symm.trans (by decide)))
  · decide

/-- C5 as stated fails: the source syntax is empty and the output style
`"bogus"` is no key of the output-style table. The call defaults
`SourceSyntax` to `"SCSS"`, returns the invalid-OutputStyle error before the
syntax lookup, and leaves `sassSourceSyntax` at its old value 1, which is not
the code 0 of `SCSS`. -/
theorem Args_init_defaults_counterexample :
    ({ Args.zero with OutputStyle := "bogus", sassSourceSyntax := 1 } : Args).SourceSyntax = "" ∧
    embeddedsass.InboundMessage_Syntax_value SourceSyntaxSCSS = some 0 ∧
    (Args.init embeddedsass id 0 ⟨""⟩
      { Args.zero with OutputStyle := "bogus", sassSourceSyntax := 1 }).1
      = some (InitError.invalidOutputStyle "bogus") ∧
    (Args.init embeddedsass id 0 ⟨""⟩
      { Args.zero with OutputStyle := "bogus", sassSourceSyntax := 1 }).2.SourceSyntax
      = SourceSyntaxSCSS ∧
    (Args.init embeddedsass id 0 ⟨""⟩
      { Args.zero with OutputStyle := "bogus", sassSourceSyntax := 1 }).2.sassSourceSyntax
      ≠ 0 := by
  decide

/-- C5, amended: `Args.init` applies the documented defaults, given tables in
which `NESTED` has the code `cN` and `SCSS` the code `cS`. For every `Args`
with an empty `OutputStyle` the call sets `OutputStyle` to `"NESTED"` and
`sassOutputStyle` to `cN`. For every `Args` with an empty `SourceSyntax` the
call sets `SourceSyntax` to `"SCSS"`, and sets `sassSourceSyntax` to `cS`
whenever the (defaulted) output style is a key of the output-style table. An
`Args` with both fields empty is accepted. -/
theorem Args_init_defaults (sass : Embeddedsass) (Clean : String → String) (seq : Nat)
    (opts : Options) (args : Args) (cN cS : Int)
    (hN : sass.InboundMessage_CompileRequest_OutputStyle_value OutputStyleNested = some cN)
    (hS : sass.InboundMessage_Syntax_value SourceSyntaxSCSS = some cS) :
    (args.OutputStyle = "" →
      (Args.init sass Clean seq opts args).2.OutputStyle = OutputStyleNested ∧
      (Args.init sass Clean seq opts args).2.sassOutputStyle = cN) ∧
    (args.SourceSyntax = "" →
      (Args.init sass Clean seq opts args).2.SourceSyntax = SourceSyntaxSCSS ∧
      (sass.InboundMessage_CompileRequest_OutputStyle_value (defaultedOutputStyle args) ≠ none →
        (Args.init sass Clean seq opts args).2.sassSourceSyntax = cS)) ∧
    (args.OutputStyle = "" → args.SourceSyntax = "" →
      (Args.init sass Clean seq opts args).1 = none) := by
  have dO : args.OutputStyle = "" → defaultedOutputStyle args = OutputStyleNested := by
    intro h; simp [defaultedOutputStyle, h]
  have dS : args.SourceSyntax = "" → defaultedSourceSyntax args = SourceSyntaxSCSS := by
    intro h; simp [defaultedSourceSyntax, h]
  rcases Args.init_cases sass Clean seq opts args with
    ⟨h1, he, hr⟩ | ⟨v, h1, h2, he, hr⟩ | ⟨v, w, h1, h2, he, hr⟩
  · refine ⟨fun h => ?_, fun h => ?_, fun h _ => ?_⟩
    · rw [dO h, hN] at h1; cases h1
    · rw [hr]; exact ⟨dS h, fun hne => absurd h1 hne⟩
    · rw [dO h, hN] at h1; cases h1
  · refine ⟨fun h => ?_, fun h => ?_, fun _ h => ?_⟩
    · rw [dO h, hN] at h1; cases h1
      rw [hr]; exact ⟨dO h, rfl⟩
    · rw [dS h, hS] at h2; cases h2
    · rw [dS h, hS] at h2; cases h2
  · refine ⟨fun h => ?_, fun h => ?_, fun _ _ => he⟩
    · rw [dO h, hN] at h1; cases h1
      rw [hr]; exact ⟨dO h, rfl⟩
    · rw [dS h, hS] at h2; cases h2
      rw [hr]; exact ⟨dS h, fun _ => rfl⟩

/-- C5 amended, evaluated on the sample tables: the zero `Args` is accepted and
ends with the style `"NESTED"` coded 2 and the syntax `"SCSS"` coded 0. -/
theorem Args_init_defaults_witness :
    (Args.init embeddedsass id 3 ⟨""⟩ Args.zero).2.OutputStyle = OutputStyleNested ∧
    (Args.init embeddedsass id 3 ⟨""⟩ Args.zero).2.sassOutputStyle = 2 ∧
    (Args.init embeddedsass id 3 ⟨""⟩ Args.zero).2.SourceSyntax = SourceSyntaxSCSS ∧
    (Args.init embeddedsass id 3 ⟨""⟩ Args.zero).2.sassSourceSyntax = 0 ∧
    (Args.init embeddedsass id 3 ⟨""⟩ Args.zero).1 = none :=
  have h := Args_init_defaults embeddedsass id 3 ⟨""⟩ Args.zero 2 0 (by decide) (by decide)
  ⟨(h.1 rfl).1, (h.1 rfl).2, (h.2.1 rfl).1, (h.2.1 rfl).2 (by decide), h.2.2 rfl rfl⟩

/-! ## Args.init: the importer chain -/

/-- C6: the importer chain is ordered custom resolver first, then the include
paths in the order supplied. For every `Args` whose `sassImporters` is empty
and on which `init` succeeds, the chain has length (1 if `ImportResolver` is
non-nil, else 0) + `len(IncludePaths)`; with a resolver the element at index 0
is the importer-ID entry; and the elements after it are path entries, the
`i`-th holding `filepath.Clean(IncludePaths[i])`. -/
theorem Args_init_importer_chain (sass : Embeddedsass) (Clean : String → String) (seq : Nat)
    (opts : Options) (args : Args)
    (h0 : args.sassImporters = [])
    (hok : (Args.init sass Clean seq opts args).1 = none) :
    (Args.init sass Clean seq opts args).2.sassImporters.length
      = (if args.ImportResolver.isSome then 1 else 0) + len args.IncludePaths ∧
    (args.ImportResolver.isSome →
      (Args.init sass Clean seq opts args).2.sassImporters[0]?
        = some (Importer.ImporterId seq)) ∧
    (∀ (i : Nat) (p : String), (elems args.IncludePaths)[i]? = some p →
      (Args.init sass Clean seq opts args).2.sassImporters[
          (if args.ImportResolver.isSome then 1 else 0) + i]?
        = some (Importer.Path (Clean p))) := by
  rw [Args.init_ok_chain sass Clean seq opts args hok, h0]
  cases hr : args.ImportResolver with
  | none =>
    refine ⟨by simp [len], by simp, ?_⟩
    intro i p hp
    simp [List.getElem?_map, hp]
  | some r =>
    refine ⟨by simp [len, Nat.add_comm], by simp, ?_⟩
    intro i p hp
    simp [Nat.add_comm 1 i, List.getElem?_map, hp]

/-- C6, evaluated: a resolver and the include paths `"a"`, `"b"` give the chain
`[ImporterId 9, Path "a", Path "b"]`. -/
theorem Args_init_importer_chain_witness :
    (Args.init embeddedsass id 9 ⟨""⟩
      { Args.zero with ImportResolver := some ImportResolver.empty,
                       IncludePaths := some ["a", "b"] }).2.sassImporters.length = 3 ∧
    (Args.init embeddedsass id 9 ⟨""⟩
      { Args.zero with ImportResolver := some ImportResolver.empty,
                       IncludePaths := some ["a", "b"] }).2.sassImporters[0]?
      = some (Importer.ImporterId 9) ∧
    (Args.init embeddedsass id 9 ⟨""⟩
      { Args.zero with ImportResolver := some ImportResolver.empty,
                       IncludePaths := some ["a", "b"] }).2.sassImporters[2]?
      = some (Importer.Path "b") :=
  have h := Args_init_importer_chain embeddedsass id 9 ⟨""⟩
      { Args.zero with ImportResolver := some ImportResolver.empty,
                       IncludePaths := some ["a", "b"] } rfl (by decide)
  ⟨h.1, h.2.1 rfl, h.2.2 1 "b" rfl⟩

/-- C7: the custom resolver is registered under the call's own identifier and
occupies one slot. For every `seq` and every `Args` with an empty
`sassImporters` on which `init` succeeds, the chain contains an importer-ID
entry if and only if `ImportResolver` is non-nil, it contains at most one such
entry, and the identifier of such an entry is `seq`. -/
theorem Args_init_resolver_slot (sass : Embeddedsass) (Clean : String → String) (seq : Nat)
    (opts : Options) (args : Args)
    (h0 : args.sassImporters = [])
    (hok : (Args.init sass Clean seq opts args).1 = none) :
    ((∃ n, Importer.ImporterId n ∈ (Args.init sass Clean seq opts args).2.sassImporters)
      ↔ args.ImportResolver.isSome) ∧
    ((Args.init sass Clean seq opts args).2.sassImporters.filter Importer.isImporterId).length
      ≤ 1 ∧
    (∀ n, Importer.ImporterId n ∈ (Args.init sass Clean seq opts args).2.sassImporters →
      n = seq) := by
  have hpaths : ∀ l : List String,
      (l.map (fun p => Importer.Path (Clean p))).filter Importer.isImporterId = [] := by
    intro l
    induction l with
    | nil => rfl
    | cons p ps ih => simp [List.filter, Importer.isImporterId]
  rw [Args.init_ok_chain sass Clean seq opts args hok, h0]
  cases hr : args.ImportResolver with
  | none => simp [hpaths]
  | some r => simp [hpaths, Importer.isImporterId, List.filter]

/-- C7, evaluated: with a resolver and seq 9 the only importer-ID entry is
`ImporterId 9`. -/
theorem Args_init_resolver_slot_witness :
    (∃ n, Importer.ImporterId n ∈ (Args.init embeddedsass id 9 ⟨""⟩
      { Args.zero with ImportResolver := some ImportResolver.empty,
                       IncludePaths := some ["a"] }).2.sassImporters) ∧
    ((Args.init embeddedsass id 9 ⟨""⟩
      { Args.zero with ImportResolver := some ImportResolver.empty,
                       IncludePaths := some ["a"] }).2.sassImporters.filter
        Importer.isImporterId).length ≤ 1 :=
  have h := Args_init_resolver_slot embeddedsass id 9 ⟨""⟩
      { Args.zero with ImportResolver := some ImportResolver.empty,
                       IncludePaths := some ["a"] } rfl (by decide)
  ⟨h.1.2 rfl, h.2.1⟩

/-- C8: an invalid option is detected before anything is registered. For every
`Args` and `seq`, if `init` returns an error then `sassImporters` is exactly
what it was before the call. -/
theorem Args_init_error_registers_nothing (sass : Embeddedsass) (Clean : String → String)
    (seq : Nat) (opts : Options) (args : Args)
    (herr : (Args.init sass Clean seq opts args).1 ≠ none) :
    (Args.init sass Clean seq opts args).2.sassImporters = args.sassImporters :=
  Args.init_err_chain sass Clean seq opts args herr

/-- C8, evaluated: with the syntax `"scss"`, no key of the sample table, the
call fails and the chain stays empty although a resolver and an include path
are present. -/
theorem Args_init_error_registers_nothing_witness :
    (Args.init embeddedsass id 9 ⟨""⟩
      { Args.zero with SourceSyntax := "scss",
                       ImportResolver := some ImportResolver.empty,
                       IncludePaths := some ["a"] }).2.sassImporters = [] :=
  Args_init_error_registers_nothing embeddedsass id 9 ⟨""⟩
      { Args.zero with SourceSyntax := "scss",
                       ImportResolver := some ImportResolver.empty,
                       IncludePaths := some ["a"] } (by decide)

/-! ## Options.init -/

/-- C9: `Options.init` resolves the engine executable to the default name or
the override. For every `Options` the returned error is nil; an empty
`DartSassEmbeddedFilename` becomes `defaultDartSassEmbeddedFilename` and a
non-empty one is left unchanged; given a non-empty default name, applying
`init` twice equals applying it once. -/
theorem Options_init_filename (defaultName : String) (opts : Options) :
    (Options.init defaultName opts).1 = none ∧
    (opts.DartSassEmbeddedFilename = "" →
      (Options.init defaultName opts).2.DartSassEmbeddedFilename = defaultName) ∧
    (opts.DartSassEmbeddedFilename ≠ "" →
      (Options.init defaultName opts).2 = opts) ∧
    (defaultName ≠ "" →
      Options.init defaultName (Options.init defaultName opts).2
        = Options.init defaultName opts) := by
  refine ⟨rfl, ?_, ?_, ?_⟩
  · intro h
    simp [Options.init, h]
  · intro h
    simp [Options.init, h]
  · intro hd
    by_cases h : opts.DartSassEmbeddedFilename = ""
    · simp [Options.init, h, hd]
    · simp [Options.init, h]

/-- C9, evaluated: the empty name becomes `"dart-sass-embedded"`, the override
`"/opt/sass"` stays, and a second `init` changes nothing. -/
theorem Options_init_filename_witness :
    (Options.init "dart-sass-embedded" ⟨""⟩).2.DartSassEmbeddedFilename = "dart-sass-embedded" ∧
    (Options.init "dart-sass-embedded" ⟨"/opt/sass"⟩).2 = ⟨"/opt/sass"⟩ ∧
    Options.init "dart-sass-embedded" (Options.init "dart-sass-embedded" ⟨""⟩).2
      = Options.init "dart-sass-embedded" ⟨""⟩ :=
  ⟨(Options_init_filename "dart-sass-embedded" ⟨""⟩).2.1 rfl,
   (Options_init_filename "dart-sass-embedded" ⟨"/opt/sass"⟩).2.2.1 (by decide),
   (Options_init_filename "dart-sass-embedded" ⟨""⟩).2.2.2 (by decide)⟩

/-! ## Request identifiers -/

/-- C11: `ParseSourceSyntax` treats `"sass"` as an alias of the indented
syntax. For every string `s` whose upper-cased form is `"INDENTED"` or `"SASS"`
the result is `SourceSyntaxSASS`, whose string value is `"INDENTED"` and not
`"SASS"`; the result is never the string `"SASS"`; and the result is
`SourceSyntaxSASS` for no other input. -/
theorem ParseSourceSyntax_sass_alias (toUpper : String → String) (s : String) :
    ((toUpper s = "INDENTED" ∨ toUpper s = "SASS") →
      ParseSourceSyntax toUpper s = SourceSyntaxSASS) ∧
    SourceSyntaxSASS = "INDENTED" ∧
    ParseSourceSyntax toUpper s ≠ "SASS" ∧
    (ParseSourceSyntax toUpper s = SourceSyntaxSASS →
      (toUpper s = "INDENTED" ∨ toUpper s = "SASS")) := by
  refine ⟨?_, rfl, ?_, ?_⟩
  · intro h
    rcases h with h | h <;>
      simp [ParseSourceSyntax, h, SourceSyntaxSCSS, SourceSyntaxSASS]
  · unfold ParseSourceSyntax
    simp only [SourceSyntaxSCSS, SourceSyntaxSASS, SourceSyntaxCSS]
    split_ifs <;> decide
  · unfold ParseSourceSyntax
    simp only [SourceSyntaxSCSS, SourceSyntaxSASS, SourceSyntaxCSS]
    split_ifs with h1 h2 h3
    · intro h; exact absurd h (by decide)
    · intro _; exact h2
    · intro h; exact absurd h (by decide)
    · intro h; exact absurd h (by decide)

/-- C11, evaluated: `"Sass"` upper-cases to `"SASS"` and parses to
`SourceSyntaxSASS`, the string `"INDENTED"`. -/
theorem ParseSourceSyntax_sass_alias_witness :
    ToUpper id "Sass" = "SASS" ∧
    ParseSourceSyntax (ToUpper id) "Sass" = SourceSyntaxSASS ∧
    ParseSourceSyntax (ToUpper id) "Sass" ≠ "SASS" :=
  ⟨by decide,
   (ParseSourceSyntax_sass_alias (ToUpper id) "Sass").1 (Or.inr (by decide)),
   (ParseSourceSyntax_sass_alias (ToUpper id) "Sass").2.2.1⟩

/-- The result of `ParseOutputStyle` is one of the four constants. -/
theorem ParseOutputStyle_mem (toUpper : String → String) (s : String) :
    ParseOutputStyle toUpper s = OutputStyleNested ∨
    ParseOutputStyle toUpper s = OutputStyleExpanded ∨
    ParseOutputStyle toUpper s = OutputStyleCompact ∨
    ParseOutputStyle toUpper s = OutputStyleCompressed := by
  unfold ParseOutputStyle
  simp only
  split_ifs <;> simp

/-- The result of `ParseSourceSyntax` is one of the three constants. -/
theorem ParseSourceSyntax_mem (toUpper : String → String) (s : String) :
    ParseSourceSyntax toUpper s = SourceSyntaxSCSS ∨
    ParseSourceSyntax toUpper s = SourceSyntaxSASS ∨
    ParseSourceSyntax toUpper s = SourceSyntaxCSS := by
  unfold ParseSourceSyntax
  simp only
  split_ifs <;> simp

/-- A call succeeds as soon as both defaulted names are keys. -/
theorem Args.init_ok_of_keys (sass : Embeddedsass) (Clean : String → String) (seq : Nat)
    (opts : Options) (args : Args)
    (hO : sass.InboundMessage_CompileRequest_OutputStyle_value (defaultedOutputStyle args) ≠ none)
    (hS : sass.InboundMessage_Syntax_value (defaultedSourceSyntax args) ≠ none) :
    (Args.init sass Clean seq opts args).1 = none := by
  rcases Args.init_cases sass Clean seq opts args with
    ⟨h1, _, _⟩ | ⟨v, _, h2, _, _⟩ | ⟨v, w, _, _, he, _⟩
  · exact absurd h1 hO
  · exact absurd h2 hS
  · exact he

/-! ## Args.init and the parse functions -/

/-- C12: every value produced by the parse functions is accepted by
`Args.init`. Given name tables in which each of the four `OutputStyle`
constants and each of the three `SourceSyntax` constants is a key, for all
strings `s` and `t` an `Args` with `OutputStyle = ParseOutputStyle(s)` and
`SourceSyntax = ParseSourceSyntax(t)` makes `init` return nil, for every `seq`
and `opts`. -/
theorem Args_init_accepts_parsed (sass : Embeddedsass) (Clean : String → String)
    (toUpper : String → String) (s t : String) (seq : Nat) (opts : Options) (args : Args)
    (hStyle : args.OutputStyle = ParseOutputStyle toUpper s)
    (hSyntax : args.SourceSyntax = ParseSourceSyntax toUpper t)
    (kNested : sass.InboundMessage_CompileRequest_OutputStyle_value OutputStyleNested ≠ none)
    (kExpanded : sass.InboundMessage_CompileRequest_OutputStyle_value OutputStyleExpanded ≠ none)
    (kCompact : sass.InboundMessage_CompileRequest_OutputStyle_value OutputStyleCompact ≠ none)
    (kCompressed :
      sass.InboundMessage_CompileRequest_OutputStyle_value OutputStyleCompressed ≠ none)
    (kSCSS : sass.InboundMessage_Syntax_value SourceSyntaxSCSS ≠ none)
    (kSASS : sass.InboundMessage_Syntax_value SourceSyntaxSASS ≠ none)
    (kCSS : sass.InboundMessage_Syntax_value SourceSyntaxCSS ≠ none) :
    (Args.init sass Clean seq opts args).1 = none := by
  apply Args.init_ok_of_keys
  · have hd : defaultedOutputStyle args = OutputStyleNested ∨
        defaultedOutputStyle args = OutputStyleExpanded ∨
        defaultedOutputStyle args = OutputStyleCompact ∨
        defaultedOutputStyle args = OutputStyleCompressed := by
      unfold defaultedOutputStyle
      split_ifs
      · exact Or.inl rfl
      · rw [hStyle]; exact ParseOutputStyle_mem toUpper s
    rcases hd with h | h | h | h <;> rw [h] <;> assumption
  · have hd : defaultedSourceSyntax args = SourceSyntaxSCSS ∨
        defaultedSourceSyntax args = SourceSyntaxSASS ∨
        defaultedSourceSyntax args = SourceSyntaxCSS := by
      unfold defaultedSourceSyntax
      split_ifs
      · exact Or.inl rfl
      · rw [hSyntax]; exact ParseSourceSyntax_mem toUpper t
    rcases hd with h | h | h <;> rw [h] <;> assumption

/-- C12, evaluated on the sample tables, where the seven constants are keys:
the style parsed from `"compact"` and the syntax parsed from `"sass"` are
accepted. -/
theorem Args_init_accepts_parsed_witness :
    (Args.init embeddedsass id 4 ⟨""⟩
      { Args.zero with OutputStyle := ParseOutputStyle (ToUpper id) "compact",
                       SourceSyntax := ParseSourceSyntax (ToUpper id) "sass" }).1 = none :=
  Args_init_accepts_parsed embeddedsass id (ToUpper id) "compact" "sass" 4 ⟨""⟩
    { Args.zero with OutputStyle := ParseOutputStyle (ToUpper id) "compact",
                     SourceSyntax := ParseSourceSyntax (ToUpper id) "sass" }
    rfl rfl (by decide) (by decide) (by decide) (by decide) (by decide) (by decide) (by decide)

/-- C13 as stated fails: the syntax `"scss"` is non-empty and no key of the
syntax table, yet with the style `"compressed"`, itself no key, the error that
`init` returns is the invalid-OutputStyle error, not an invalid-SourceSyntax
error. -/
theorem Args_init_case_sensitive_counterexample :
    ("scss" : String) ≠ "" ∧
    embeddedsass.InboundMessage_Syntax_value "scss" = none ∧
    (Args.init embeddedsass id 0 ⟨""⟩
      { Args.zero with OutputStyle := "compressed", SourceSyntax := "scss" }).1
      = some (InitError.invalidOutputStyle "compressed") ∧
    (Args.init embeddedsass id 0 ⟨""⟩
      { Args.zero with OutputStyle := "compressed", SourceSyntax := "scss" }).1
      ≠ some (InitError.invalidSourceSyntax "scss") := by
  decide

/-- C13, amended: `Args.init` matches option names exactly. For every
non-empty `OutputStyle` that is not a key of the output-style table, `init`
returns the invalid-OutputStyle error for it and does not replace it by the
nested default. Likewise every non-empty `SourceSyntax` that is not a key of
the syntax table makes `init` fail and is not replaced by the default; the
error is the invalid-SourceSyntax error for it when the (defaulted) output
style is a key of the output-style table. -/
theorem Args_init_case_sensitive (sass : Embeddedsass) (Clean : String → String) (seq : Nat)
    (opts : Options) (args : Args) :
    (args.OutputStyle ≠ "" →
      sass.InboundMessage_CompileRequest_OutputStyle_value args.OutputStyle = none →
      (Args.init sass Clean seq opts args).1
        = some (InitError.invalidOutputStyle args.OutputStyle) ∧
      (Args.init sass Clean seq opts args).2.OutputStyle = args.OutputStyle) ∧
    (args.SourceSyntax ≠ "" →
      sass.InboundMessage_Syntax_value args.SourceSyntax = none →
      (Args.init sass Clean seq opts args).1 ≠ none ∧
      (Args.init sass Clean seq opts args).2.SourceSyntax = args.SourceSyntax ∧
      (sass.InboundMessage_CompileRequest_OutputStyle_value (defaultedOutputStyle args) ≠ none →
        (Args.init sass Clean seq opts args).1
          = some (InitError.invalidSourceSyntax args.SourceSyntax))) := by
  have dO : args.OutputStyle ≠ "" → defaultedOutputStyle args = args.OutputStyle := by
    intro h; simp [defaultedOutputStyle, h]
  have dS : args.SourceSyntax ≠ "" → defaultedSourceSyntax args = args.SourceSyntax := by
    intro h; simp [defaultedSourceSyntax, h]
  rcases Args.init_cases sass Clean seq opts args with
    ⟨h1, he, hr⟩ | ⟨v, h1, h2, he, hr⟩ | ⟨v, w, h1, h2, he, hr⟩
  · refine ⟨fun hne _ => ?_, fun hne _ => ⟨?_, ?_, fun hk => absurd h1 hk⟩⟩
    · rw [he, hr, dO hne]; exact ⟨rfl, rfl⟩
    · rw [he]; exact Option.some_ne_none _
    · rw [hr]; exact dS hne
  · refine ⟨fun hne hk => ?_, fun hne _ => ⟨?_, ?_, fun _ => ?_⟩⟩
    · rw [dO hne, hk] at h1; cases h1
    · rw [he]; exact Option.some_ne_none _
    · rw [hr]; exact dS hne
    · rw [he, dS hne]
  · refine ⟨fun hne hk => ?_, fun hne hk => ?_⟩
    · rw [dO hne, hk] at h1; cases h1
    · rw [dS hne, hk] at h2; cases h2

/-- C13 amended, evaluated on the sample tables: the styles `"compressed"` and
`"Compressed"` give the invalid-OutputStyle error, and with the default style
the syntaxes `"scss"` and `"SASS"` give the invalid-SourceSyntax error. -/
theorem Args_init_case_sensitive_witness :
    (Args.init embeddedsass id 0 ⟨""⟩ { Args.zero with OutputStyle := "compressed" }).1
      = some (InitError.invalidOutputStyle "compressed") ∧
    (Args.init embeddedsass id 0 ⟨""⟩ { Args.zero with OutputStyle := "Compressed" }).1
      = some (InitError.invalidOutputStyle "Compressed") ∧
    (Args.init embeddedsass id 0 ⟨""⟩ { Args.zero with SourceSyntax := "scss" }).1
      = some (InitError.invalidSourceSyntax "scss") ∧
    (Args.init embeddedsass id 0 ⟨""⟩ { Args.zero with SourceSyntax := "SASS" }).1
      = some (InitError.invalidSourceSyntax "SASS") :=
  ⟨((Args_init_case_sensitive embeddedsass id 0 ⟨""⟩
      { Args.zero with OutputStyle := "compressed" }).1 (by decide) (by decide)).1,
   ((Args_init_case_sensitive embeddedsass id 0 ⟨""⟩
      { Args.zero with OutputStyle := "Compressed" }).1 (by decide) (by decide)).1,
   ((Args_init_case_sensitive embeddedsass id 0 ⟨""⟩
      { Args.zero with SourceSyntax := "scss" }).2 (by decide) (by decide)).2.2 (by decide),
   ((Args_init_case_sensitive embeddedsass id 0 ⟨""⟩
      { Args.zero with SourceSyntax := "SASS" }).2 (by decide) (by decide)).2.2 (by decide)⟩

/-- C14: the parse functions are closed over their enumerations and
idempotent. For every string `s`, `ParseOutputStyle(s)` is one of the four
`OutputStyle` constants and parsing it again gives the same value;
`ParseSourceSyntax(s)` is one of the three `SourceSyntax` constants and
parsing it again gives the same value. The upper-casing is Go's, with any
`unicode.ToUpper` outside ASCII. -/
theorem Parse_closed_idempotent (up : Char → Char) (s : String) :
    (ParseOutputStyle (ToUpper up) s = OutputStyleNested ∨
      ParseOutputStyle (ToUpper up) s = OutputStyleExpanded ∨
      ParseOutputStyle (ToUpper up) s = OutputStyleCompact ∨
      ParseOutputStyle (ToUpper up) s = OutputStyleCompressed) ∧
    ParseOutputStyle (ToUpper up) (ParseOutputStyle (ToUpper up) s)
      = ParseOutputStyle (ToUpper up) s ∧
    (ParseSourceSyntax (ToUpper up) s = SourceSyntaxSCSS ∨
      ParseSourceSyntax (ToUpper up) s = SourceSyntaxSASS ∨
      ParseSourceSyntax (ToUpper up) s = SourceSyntaxCSS) ∧
    ParseSourceSyntax (ToUpper up) (ParseSourceSyntax (ToUpper up) s)
      = ParseSourceSyntax (ToUpper up) s := by
  refine ⟨ParseOutputStyle_mem _ s, ?_, ParseSourceSyntax_mem _ s, ?_⟩
  · rcases ParseOutputStyle_mem (ToUpper up) s with h | h | h | h <;> rw [h] <;> rfl
  · rcases ParseSourceSyntax_mem (ToUpper up) s with h | h | h <;> rw [h] <;> rfl

/-- C14, evaluated: `"sass"` parses to `"INDENTED"`, which parses to itself,
and `"Compact"` parses to `"COMPACT"`, which parses to itself. -/
theorem Parse_closed_idempotent_witness :
    ParseOutputStyle (ToUpper id) (ParseOutputStyle (ToUpper id) "Compact")
      = ParseOutputStyle (ToUpper id) "Compact" ∧
    ParseSourceSyntax (ToUpper id) (ParseSourceSyntax (ToUpper id) "sass")
      = ParseSourceSyntax (ToUpper id) "sass" :=
  ⟨(Parse_closed_idempotent id "Compact").2.1, (Parse_closed_idempotent id "sass").2.2.2⟩

/-! ## Args.init: frame and order of the checks -/

/-- C15: `Args.init` leaves the caller's inputs untouched. For every `Args`,
`seq` and `opts`, whether the call succeeds or fails, the fields `Source`,
`URL`, `EnableSourceMap`, `ImportResolver` and `IncludePaths` are the same
after the call as before; a non-empty `OutputStyle` or `SourceSyntax` is not
rewritten; and the result is the same for every other `opts`. -/
theorem Args_init_frame (sass : Embeddedsass) (Clean : String → String) (seq : Nat)
    (opts : Options) (args : Args) :
    (Args.init sass Clean seq opts args).2.Source = args.Source ∧
    (Args.init sass Clean seq opts args).2.URL = args.URL ∧
    (Args.init sass Clean seq opts args).2.EnableSourceMap = args.EnableSourceMap ∧
    (Args.init sass Clean seq opts args).2.ImportResolver = args.ImportResolver ∧
    (Args.init sass Clean seq opts args).2.IncludePaths = args.IncludePaths ∧
    (args.OutputStyle ≠ "" →
      (Args.init sass Clean seq opts args).2.OutputStyle = args.OutputStyle) ∧
    (args.SourceSyntax ≠ "" →
      (Args.init sass Clean seq opts args).2.SourceSyntax = args.SourceSyntax) ∧
    (∀ opts2 : Options,
      Args.init sass Clean seq opts2 args = Args.init sass Clean seq opts args) := by
  have dO : args.OutputStyle ≠ "" → defaultedOutputStyle args = args.OutputStyle := by
    intro h; simp [defaultedOutputStyle, h]
  have dS : args.SourceSyntax ≠ "" → defaultedSourceSyntax args = args.SourceSyntax := by
    intro h; simp [defaultedSourceSyntax, h]
  rcases Args.init_cases sass Clean seq opts args with
    ⟨_, _, hr⟩ | ⟨v, _, _, _, hr⟩ | ⟨v, w, _, _, _, hr⟩ <;>
  · rw [hr]
    exact ⟨rfl, rfl, rfl, rfl, rfl, dO, dS, fun _ => rfl⟩

/-- C15, evaluated with a stand-in for `filepath.Clean` that maps every path to
`"b"`: a failing call keeps the style `"bogus"`; a succeeding call keeps the
include path `"a/../b"` and puts the cleaned path in the chain only. -/
theorem Args_init_frame_witness :
    (Args.init embeddedsass (fun _ => "b") 1 ⟨""⟩
      { Args.zero with OutputStyle := "bogus", IncludePaths := some ["a/../b"] }).2.OutputStyle
      = "bogus" ∧
    (Args.init embeddedsass (fun _ => "b") 1 ⟨""⟩
      { Args.zero with IncludePaths := some ["a/../b"] }).2.IncludePaths
      = some ["a/../b"] ∧
    (Args.init embeddedsass (fun _ => "b") 1 ⟨""⟩
      { Args.zero with IncludePaths := some ["a/../b"] }).2.sassImporters
      = [Importer.Path "b"] :=
  ⟨(Args_init_frame embeddedsass (fun _ => "b") 1 ⟨""⟩
      { Args.zero with OutputStyle := "bogus", IncludePaths := some ["a/../b"] }).2.2.2.2.2.1
      (by decide),
   (Args_init_frame embeddedsass (fun _ => "b") 1 ⟨""⟩
      { Args.zero with IncludePaths := some ["a/../b"] }).2.2.2.2.1,
   by decide⟩

/-- C16: `Args.init` checks the output style before the source syntax. For
every `Args` whose (defaulted) `OutputStyle` is no key of the output-style
table the returned error is the invalid-OutputStyle error for that value,
whatever `SourceSyntax` holds; and an invalid-SourceSyntax error is returned
only when the (defaulted) `OutputStyle` is a key and the (defaulted)
`SourceSyntax` is not, and then it names that `SourceSyntax`. -/
theorem Args_init_style_checked_first (sass : Embeddedsass) (Clean : String → String)
    (seq : Nat) (opts : Options) (args : Args) :
    (sass.InboundMessage_CompileRequest_OutputStyle_value (defaultedOutputStyle args) = none →
      (Args.init sass Clean seq opts args).1
        = some (InitError.invalidOutputStyle (defaultedOutputStyle args))) ∧
    (∀ v, (Args.init sass Clean seq opts args).1 = some (InitError.invalidSourceSyntax v) →
      v = defaultedSourceSyntax args ∧
      sass.InboundMessage_CompileRequest_OutputStyle_value (defaultedOutputStyle args) ≠ none ∧
      sass.InboundMessage_Syntax_value (defaultedSourceSyntax args) = none) ∧
    (sass.InboundMessage_CompileRequest_OutputStyle_value (defaultedOutputStyle args) ≠ none →
      sass.InboundMessage_Syntax_value (defaultedSourceSyntax args) = none →
      (Args.init sass Clean seq opts args).1
        = some (InitError.invalidSourceSyntax (defaultedSourceSyntax args))) := by
  rcases Args.init_cases sass Clean seq opts args with
    ⟨h1, he, _⟩ | ⟨v, h1, h2, he, _⟩ | ⟨v, w, h1, h2, he, _⟩
  · refine ⟨fun _ => he, fun u hu => ?_, fun hk _ => absurd h1 hk⟩
    rw [he] at hu; cases hu
  · refine ⟨fun hk => ?_, fun u hu => ?_, fun _ _ => he⟩
    · rw [hk] at h1; cases h1
    · rw [he] at hu
      cases hu
      exact ⟨rfl, by rw [h1]; exact Option.some_ne_none _, h2⟩
  · refine ⟨fun hk => ?_, fun u hu => ?_, fun _ hk => ?_⟩
    · rw [hk] at h1; cases h1
    · rw [he] at hu; cases hu
    · rw [hk] at h2; cases h2

/-- C16, evaluated on the sample tables: with the style `"bogus"` the error
names the style both for the valid syntax `"CSS"` and for the invalid syntax
`"less"`; with the style `"COMPACT"` the syntax `"less"` gives the
invalid-SourceSyntax error. -/
theorem Args_init_style_checked_first_witness :
    (Args.init embeddedsass id 0 ⟨""⟩
      { Args.zero with OutputStyle := "bogus", SourceSyntax := "CSS" }).1
      = some (InitError.invalidOutputStyle "bogus") ∧
    (Args.init embeddedsass id 0 ⟨""⟩
      { Args.zero with OutputStyle := "bogus", SourceSyntax := "less" }).1
      = some (InitError.invalidOutputStyle "bogus") ∧
    (Args.init embeddedsass id 0 ⟨""⟩
      { Args.zero with OutputStyle := "COMPACT", SourceSyntax := "less" }).1
      = some (InitError.invalidSourceSyntax "less") :=
  ⟨(Args_init_style_checked_first embeddedsass id 0 ⟨""⟩
      { Args.zero with OutputStyle := "bogus", SourceSyntax := "CSS" }).1 (by decide),
   (Args_init_style_checked_first embeddedsass id 0 ⟨""⟩
      { Args.zero with OutputStyle := "bogus", SourceSyntax := "less" }).1 (by decide),
   (Args_init_style_checked_first embeddedsass id 0 ⟨""⟩
      { Args.zero with OutputStyle := "COMPACT", SourceSyntax := "less" }).2.2
      (by decide) (by decide)⟩

end Godartsass
